import Mathlib

/-!
Verification of the weapon-tracking IoT system: the detector/tracker fusion
core and servo angle mapping described in the repository documentation
(HYBRID_TRACKER_README.md, the servo-aiming README), and the frontend
TypeScript services (frontend/src/services/websocket.ts, the incident
storage service, and the App display-message handler).

Times, angles and confidences are modelled as rationals; the backend's
fusion state machine and angle mapper, whose Python sources
(backend/hybrid_tracker.py, backend/servo_controller.py) are not part of
the source tree, are modelled from the specification, as marked on each
definition.
-/

namespace ProyectoIot

/-- An axis-aligned bounding box in pixel coordinates. -/
structure Box where
  x1 : ℚ
  y1 : ℚ
  x2 : ℚ
  y2 : ℚ
deriving DecidableEq, Repr

/-- Horizontal center of a box. -/
def Box.centerX (b : Box) : ℚ := (b.x1 + b.x2) / 2

/-- Vertical center of a box. -/
def Box.centerY (b : Box) : ℚ := (b.y1 + b.y2) / 2

/-- A detector candidate: box, class label and confidence score. -/
structure Detection where
  box : Box
  class_label : String
  confidence : ℚ
deriving DecidableEq, Repr

/-- Which sensor produced the current box this frame. -/
inductive BoxSource where
  | detector
  | tracker
deriving DecidableEq, Repr

/-- Modelled from the spec: the TrackState record owned by the fusion state
machine of backend/hybrid_tracker.py (the Python source is not in the
tree). `active` is the IDLE/TRACKING flag; `current_box` is present iff
active; `last_detection_time` is the monotonic time of the last accepted
detector anchor; `frame_counter` schedules detector invocations. -/
structure TrackState where
  active : Bool
  current_box : Option Box
  class_label : String
  last_confidence : ℚ
  last_detection_time : ℚ
  source : BoxSource
  frame_counter : ℕ
deriving DecidableEq, Repr

/-- Modelled from the spec: the fusion configuration knobs of
backend/hybrid_tracker.py (initial and redetect confidence thresholds,
detector scheduling interval, tracking timeout). -/
structure FusionConfig where
  initial_threshold : ℚ
  redetect_threshold : ℚ
  detection_interval : ℕ
  timeout_seconds : ℚ
deriving DecidableEq, Repr

/-- The documented defaults: 0.8 initial, 0.6 redetect, every 10 frames,
5 second timeout. -/
def defaultFusionConfig : FusionConfig :=
  { initial_threshold := 4 / 5
    redetect_threshold := 3 / 5
    detection_interval := 10
    timeout_seconds := 5 }

/-- The empty track state a process starts from. -/
def idleState : TrackState :=
  { active := false
    current_box := none
    class_label := ""
    last_confidence := 0
    last_detection_time := 0
    source := BoxSource.tracker
    frame_counter := 0 }

/-- Modelled from the spec: step 1 of the per-frame protocol — the detector
is invoked when the frame counter hits the schedule or whenever the machine
is idle. -/
def detectionScheduled (cfg : FusionConfig) (st : TrackState) : Bool :=
  st.frame_counter % cfg.detection_interval == 0 || !st.active

/-- Modelled from the spec: whether a selector-returned detection is
accepted — against the initial threshold while idle, against the (lower)
redetect threshold while tracking. -/
def detectionAccepted (cfg : FusionConfig) (st : TrackState) (d : Detection) : Bool :=
  if st.active then cfg.redetect_threshold ≤ d.confidence
  else cfg.initial_threshold ≤ d.confidence

/-- Modelled from the spec: the state written when a detection is accepted.
While tracking this is a re-anchor (fresh box, confidence, anchor time,
detector provenance); from idle it is an acquisition, which additionally
records the class label and activates the track. -/
def anchorState (st : TrackState) (now : ℚ) (d : Detection) : TrackState :=
  if st.active then
    { st with current_box := some d.box
              last_confidence := d.confidence
              last_detection_time := now
              source := BoxSource.detector }
  else
    { st with active := true
              current_box := some d.box
              class_label := d.class_label
              last_confidence := d.confidence
              last_detection_time := now
              source := BoxSource.detector }

/-- Modelled from the spec: step 2 of the per-frame protocol of
backend/hybrid_tracker.py. `detResult` is the target selector's output when
the detector ran (none covers no candidate, a filtered-out candidate, and
adapter failure). Returns the updated state and whether this frame anchored
on the detector (acquisition from idle, or a re-anchor while tracking). -/
def stepDetection (cfg : FusionConfig) (st : TrackState) (now : ℚ)
    (detResult : Option Detection) : TrackState × Bool :=
  match detResult with
  | some d =>
    if detectionScheduled cfg st && detectionAccepted cfg st d then
      (anchorState st now d, true)
    else (st, false)
  | none => (st, false)

/-- Modelled from the spec: step 3 of the per-frame protocol — the visual
tracker update, run whenever the machine is tracking at this point.
`trackerResult` is the adapter's answer: a box on success, none on failure.
Success adopts the returned box with tracker provenance unless the detector
already anchored this frame; failure is authoritative and forces idle. -/
def stepTracker (st : TrackState) (detectorAnchored : Bool)
    (trackerResult : Option Box) : TrackState :=
  if st.active then
    match trackerResult with
    | some b =>
      { st with current_box := some b
                source := if detectorAnchored then BoxSource.detector
                          else BoxSource.tracker }
    | none => { st with active := false, current_box := none }
  else st

/-- Modelled from the spec: step 4 of the per-frame protocol — a track left
unconfirmed by the detector for longer than the timeout is dropped even if
the tracker still reports a lock. -/
def stepTimeout (cfg : FusionConfig) (st : TrackState) (now : ℚ) : TrackState :=
  if st.active = true ∧ cfg.timeout_seconds < now - st.last_detection_time then
    { st with active := false, current_box := none }
  else st

/-- Modelled from the spec: one full frame of HybridWeaponTracker.process_frame
(backend/hybrid_tracker.py, not in the tree): detection/selection, tracker
update, timeout check, frame counter advance. -/
def process_frame (cfg : FusionConfig) (st : TrackState) (now : ℚ)
    (detResult : Option Detection) (trackerResult : Option Box) : TrackState :=
  let anchored := stepDetection cfg st now detResult
  let tracked := stepTracker anchored.1 anchored.2 trackerResult
  let timedOut := stepTimeout cfg tracked now
  { timedOut with frame_counter := timedOut.frame_counter + 1 }

/-- A two-axis actuator command in degrees. -/
structure ServoCommand where
  angle_x : ℚ
  angle_y : ℚ
deriving DecidableEq, Repr

/-- Modelled from the spec: the camera/servo parameters of the angle mapper
(backend/servo_controller.py, not in the tree). `vertical_sign` fixes the
actuator's vertical convention (+1 or -1). -/
structure MapperConfig where
  frame_width : ℚ
  frame_height : ℚ
  fov_horizontal : ℚ
  fov_vertical : ℚ
  servo_center_x : ℚ
  servo_center_y : ℚ
  vertical_sign : ℚ
deriving DecidableEq, Repr

/-- The documented defaults: 640x480 frame, 60x45 degree FOV, center 90/90. -/
def defaultMapperConfig : MapperConfig :=
  { frame_width := 640
    frame_height := 480
    fov_horizontal := 60
    fov_vertical := 45
    servo_center_x := 90
    servo_center_y := 90
    vertical_sign := 1 }

/-- Clamp an angle into the servo range [0, 180]. -/
def clampAngle (a : ℚ) : ℚ := max 0 (min 180 a)

/-- Modelled from the spec: horizontal normalization of a pixel coordinate,
(cx - W/2) / (W/2). -/
def normX (m : MapperConfig) (cx : ℚ) : ℚ :=
  (cx - m.frame_width / 2) / (m.frame_width / 2)

/-- Modelled from the spec: vertical normalization of a pixel coordinate,
(cy - H/2) / (H/2). -/
def normY (m : MapperConfig) (cy : ℚ) : ℚ :=
  (cy - m.frame_height / 2) / (m.frame_height / 2)

/-- Modelled from the spec: raw (pre-clamp) horizontal angle,
center_x + nx * (fov_horizontal / 2). -/
def rawAngleX (m : MapperConfig) (cx : ℚ) : ℚ :=
  m.servo_center_x + normX m cx * (m.fov_horizontal / 2)

/-- Modelled from the spec: raw (pre-clamp) vertical angle,
center_y ± ny * (fov_vertical / 2), the sign given by the configured
vertical convention. -/
def rawAngleY (m : MapperConfig) (cy : ℚ) : ℚ :=
  m.servo_center_y + m.vertical_sign * (normY m cy * (m.fov_vertical / 2))

/-- Modelled from the spec: the angle mapper of backend/servo_controller.py
(not in the tree) — a pure function from the track state and camera/servo
parameters to a servo command. An inactive track maps to the configured
center; an active one maps its box center through normalization, FOV
scaling and clamping. -/
def angleMapper (m : MapperConfig) (st : TrackState) : ServoCommand :=
  if st.active then
    match st.current_box with
    | some b =>
      { angle_x := clampAngle (rawAngleX m b.centerX)
        angle_y := clampAngle (rawAngleY m b.centerY) }
    | none => { angle_x := m.servo_center_x, angle_y := m.servo_center_y }
  else { angle_x := m.servo_center_x, angle_y := m.servo_center_y }

/-- The state invariant: an inactive machine holds no box. -/
def boxInvariant (st : TrackState) : Prop :=
  st.active = false → st.current_box = none

/-- An accepted anchor always leaves the machine active. -/
lemma anchorState_active (st : TrackState) (now : ℚ) (d : Detection) :
    (anchorState st now d).active = true := by
  unfold anchorState
  split_ifs with h <;> simp [h]

/-- An accepted anchor records the detection's box. -/
lemma anchorState_box (st : TrackState) (now : ℚ) (d : Detection) :
    (anchorState st now d).current_box = some d.box := by
  unfold anchorState
  split_ifs <;> rfl

/-- An accepted anchor stamps the current time as the anchor time. -/
lemma anchorState_time (st : TrackState) (now : ℚ) (d : Detection) :
    (anchorState st now d).last_detection_time = now := by
  unfold anchorState
  split_ifs <;> rfl

/-- An accepted anchor marks the detector as the box's source. -/
lemma anchorState_source (st : TrackState) (now : ℚ) (d : Detection) :
    (anchorState st now d).source = BoxSource.detector := by
  unfold anchorState
  split_ifs <;> rfl

/-- When the detection step anchors nothing, it leaves the state untouched. -/
lemma stepDetection_not_anchored (cfg : FusionConfig) (st : TrackState)
    (now : ℚ) (detResult : Option Detection)
    (h : (stepDetection cfg st now detResult).2 = false) :
    (stepDetection cfg st now detResult).1 = st := by
  cases detResult with
  | none => rfl
  | some d =>
    unfold stepDetection at h ⊢
    by_cases hC :
        (detectionScheduled cfg st && detectionAccepted cfg st d) = true
    · simp [hC] at h
    · simp [hC]

/-- When the detection step anchors, it wrote the anchor state of some
returned detection, which was scheduled and accepted. -/
lemma stepDetection_anchored (cfg : FusionConfig) (st : TrackState)
    (now : ℚ) (detResult : Option Detection)
    (h : (stepDetection cfg st now detResult).2 = true) :
    ∃ d, detResult = some d ∧ detectionScheduled cfg st = true ∧
      detectionAccepted cfg st d = true ∧
      (stepDetection cfg st now detResult).1 = anchorState st now d := by
  cases detResult with
  | none => exact absurd h (by simp [stepDetection])
  | some d =>
    refine ⟨d, rfl, ?_⟩
    unfold stepDetection at h ⊢
    by_cases hC :
        (detectionScheduled cfg st && detectionAccepted cfg st d) = true
    · simp only [Bool.and_eq_true] at hC
      simp [hC.1, hC.2]
    · simp [hC] at h

/-- The tracker step does nothing while the machine is idle. -/
lemma stepTracker_inactive (st : TrackState) (a : Bool) (r : Option Box)
    (h : st.active = false) : stepTracker st a r = st := by
  unfold stepTracker
  simp [h]

/-- A tracker failure while tracking forces the idle state and clears the
box. -/
lemma stepTracker_failure (st : TrackState) (a : Bool)
    (h : st.active = true) :
    stepTracker st a none = { st with active := false, current_box := none } := by
  unfold stepTracker
  simp [h]

/-- A tracker success while tracking adopts the returned box; the source is
the tracker unless the detector anchored this frame. -/
lemma stepTracker_success (st : TrackState) (a : Bool) (b : Box)
    (h : st.active = true) :
    stepTracker st a (some b) =
      { st with current_box := some b
                source := if a then BoxSource.detector else BoxSource.tracker } := by
  unfold stepTracker
  simp [h]

/-- The tracker step preserves the idle-holds-no-box invariant. -/
lemma stepTracker_boxInvariant (st : TrackState) (a : Bool) (r : Option Box)
    (hInv : boxInvariant st) : boxInvariant (stepTracker st a r) := by
  by_cases h : st.active = true
  · cases r with
    | some b => rw [stepTracker_success st a b h]; intro hF; simp_all
    | none => rw [stepTracker_failure st a h]; intro _; rfl
  · rw [stepTracker_inactive st a r (by simp_all)]
    exact hInv

/-- The timeout step preserves the idle-holds-no-box invariant. -/
lemma stepTimeout_boxInvariant (cfg : FusionConfig) (st : TrackState)
    (now : ℚ) (hInv : boxInvariant st) :
    boxInvariant (stepTimeout cfg st now) := by
  unfold stepTimeout
  split_ifs with h
  · intro _; rfl
  · exact hInv

/-- If the timeout step leaves the machine tracking, the anchor age is at
most the timeout. -/
lemma stepTimeout_age_le (cfg : FusionConfig) (st : TrackState) (now : ℚ)
    (hA : (stepTimeout cfg st now).active = true) :
    now - (stepTimeout cfg st now).last_detection_time ≤ cfg.timeout_seconds := by
  unfold stepTimeout at hA ⊢
  split_ifs at hA ⊢ with hC
  rcases not_and_or.mp hC with h | h
  · exact absurd hA h
  · exact le_of_not_lt h

/-- A frame that ends idle has no current box, provided the incoming state
respected the same invariant. -/
lemma process_frame_boxInvariant (cfg : FusionConfig) (st : TrackState)
    (now : ℚ) (detResult : Option Detection) (trackerResult : Option Box)
    (hInv : boxInvariant st) :
    boxInvariant (process_frame cfg st now detResult trackerResult) := by
  have hstep : boxInvariant (stepDetection cfg st now detResult).1 := by
    rcases h2 : (stepDetection cfg st now detResult).2 with _ | _
    · rw [stepDetection_not_anchored cfg st now detResult h2]
      exact hInv
    · obtain ⟨d, _, _, _, hEq⟩ := stepDetection_anchored cfg st now detResult h2
      rw [hEq]
      intro hF
      exact absurd (anchorState_active st now d) (by simp [hF])
  have h3 : boxInvariant
      (stepTimeout cfg
        (stepTracker (stepDetection cfg st now detResult).1
          (stepDetection cfg st now detResult).2 trackerResult) now) :=
    stepTimeout_boxInvariant _ _ _
      (stepTracker_boxInvariant _ _ _ hstep)
  intro hIdle
  exact h3 hIdle

/-- An inactive track maps to the configured center command. -/
lemma angleMapper_inactive (m : MapperConfig) (st : TrackState)
    (h : st.active = false) :
    angleMapper m st =
      { angle_x := m.servo_center_x, angle_y := m.servo_center_y } := by
  unfold angleMapper
  simp [h]

/-- The frame step written out: detection, tracker, timeout, counter. -/
lemma process_frame_eq (cfg : FusionConfig) (st : TrackState) (now : ℚ)
    (detResult : Option Detection) (trackerResult : Option Box) :
    process_frame cfg st now detResult trackerResult =
      { stepTimeout cfg
          (stepTracker (stepDetection cfg st now detResult).1
            (stepDetection cfg st now detResult).2 trackerResult) now
        with frame_counter :=
          (stepTimeout cfg
            (stepTracker (stepDetection cfg st now detResult).1
              (stepDetection cfg st now detResult).2 trackerResult)
            now).frame_counter + 1 } := rfl

/-- The timeout step does nothing to an idle machine. -/
lemma stepTimeout_inactive (cfg : FusionConfig) (st : TrackState) (now : ℚ)
    (h : st.active = false) : stepTimeout cfg st now = st := by
  unfold stepTimeout
  rw [if_neg]
  rintro ⟨hA, -⟩
  simp [h] at hA

/-- Whatever the frame's inputs, a frame that ends tracking has an anchor
age of at most the configured timeout. -/
lemma process_frame_age_le (cfg : FusionConfig) (st : TrackState) (now : ℚ)
    (detResult : Option Detection) (trackerResult : Option Box)
    (hA : (process_frame cfg st now detResult trackerResult).active = true) :
    now - (process_frame cfg st now detResult trackerResult).last_detection_time ≤
      cfg.timeout_seconds := by
  rw [process_frame_eq] at hA ⊢
  exact stepTimeout_age_le cfg _ now hA

/-- Claim C1: on every frame where the fusion state machine ends inactive,
no current box is present and the emitted servo command is the configured
center, by default (90°, 90°). -/
theorem fusion_inactive_centers_servo (cfg : FusionConfig) (m : MapperConfig)
    (st : TrackState) (now : ℚ) (detResult : Option Detection)
    (trackerResult : Option Box)
    (hInv : st.active = false → st.current_box = none)
    (hIdle : (process_frame cfg st now detResult trackerResult).active = false) :
    (process_frame cfg st now detResult trackerResult).current_box = none ∧
    angleMapper m (process_frame cfg st now detResult trackerResult) =
      { angle_x := m.servo_center_x, angle_y := m.servo_center_y } ∧
    angleMapper defaultMapperConfig
      (process_frame cfg st now detResult trackerResult) =
      { angle_x := 90, angle_y := 90 } := by
  refine ⟨process_frame_boxInvariant cfg st now detResult trackerResult hInv hIdle,
    angleMapper_inactive m _ hIdle, ?_⟩
  exact angleMapper_inactive defaultMapperConfig _ hIdle

/-- Claim C1 witness: a full default-configuration frame from the initial
idle state, with no detection, ends idle with no box and a centered servo
command. -/
theorem fusion_inactive_centers_servo_witness :
    (process_frame defaultFusionConfig idleState 0 none none).current_box = none ∧
    angleMapper defaultMapperConfig
      (process_frame defaultFusionConfig idleState 0 none none) =
      { angle_x := 90, angle_y := 90 } := by
  have h := fusion_inactive_centers_servo defaultFusionConfig defaultMapperConfig
    idleState 0 none none (fun _ => rfl) (by decide)
  exact ⟨h.1, h.2.2⟩

/-- Claim C2: a tracking frame whose anchor age exceeds the timeout and on
which no qualifying re-anchor occurred ends idle with its box cleared, even
when the tracker update succeeded; in general no frame ends tracking with
an anchor age above the timeout. -/
theorem fusion_timeout_forces_idle (cfg : FusionConfig) (st : TrackState)
    (now : ℚ) (detResult : Option Detection) (trackerResult : Option Box)
    (hA : st.active = true)
    (hNoRe : (stepDetection cfg st now detResult).2 = false)
    (hTo : cfg.timeout_seconds < now - st.last_detection_time) :
    (process_frame cfg st now detResult trackerResult).active = false ∧
    (process_frame cfg st now detResult trackerResult).current_box = none ∧
    ∀ (st2 : TrackState) (detR2 : Option Detection) (trkR2 : Option Box),
      (process_frame cfg st2 now detR2 trkR2).active = true →
      now - (process_frame cfg st2 now detR2 trkR2).last_detection_time ≤
        cfg.timeout_seconds := by
  have h1 := stepDetection_not_anchored cfg st now detResult hNoRe
  have hMain :
      (process_frame cfg st now detResult trackerResult).active = false ∧
      (process_frame cfg st now detResult trackerResult).current_box = none := by
    rw [process_frame_eq, hNoRe, h1]
    cases trackerResult with
    | none =>
      rw [stepTracker_failure st false hA,
        stepTimeout_inactive cfg _ now (by rfl)]
      exact ⟨rfl, rfl⟩
    | some b =>
      rw [stepTracker_success st false b hA]
      unfold stepTimeout
      rw [if_pos ⟨hA, by simpa using hTo⟩]
      exact ⟨rfl, rfl⟩
  exact ⟨hMain.1, hMain.2, fun st2 detR2 trkR2 hAct =>
    process_frame_age_le cfg st2 now detR2 trkR2 hAct⟩

/-- Claim C2 witness: a track anchored at time 0, processed at time 6 with
no detector result and a successful tracker update, ends idle with no box
under the default 5 second timeout. -/
theorem fusion_timeout_forces_idle_witness :
    (process_frame defaultFusionConfig
        { active := true, current_box := some ⟨100, 100, 200, 200⟩
          class_label := "Gun", last_confidence := 17 / 20
          last_detection_time := 0, source := BoxSource.detector
          frame_counter := 3 } 6 none (some ⟨110, 110, 210, 210⟩)).active =
      false := by
  have h := fusion_timeout_forces_idle defaultFusionConfig
    { active := true, current_box := some ⟨100, 100, 200, 200⟩
      class_label := "Gun", last_confidence := 17 / 20
      last_detection_time := 0, source := BoxSource.detector
      frame_counter := 3 } 6 none (some ⟨110, 110, 210, 210⟩)
    rfl (by decide) (by norm_num [defaultFusionConfig])
  exact h.1

/-- Claim C3: on a tracking frame where the visual tracker reports failure,
the machine ends idle with its box cleared, whatever the elapsed time since
the last accepted detection and whatever the detector returned. -/
theorem fusion_tracker_failure_forces_idle (cfg : FusionConfig)
    (st : TrackState) (now : ℚ) (detResult : Option Detection)
    (hA : st.active = true) :
    (process_frame cfg st now detResult none).active = false ∧
    (process_frame cfg st now detResult none).current_box = none := by
  have h1 : (stepDetection cfg st now detResult).1.active = true := by
    rcases h2 : (stepDetection cfg st now detResult).2 with _ | _
    · rw [stepDetection_not_anchored cfg st now detResult h2]
      exact hA
    · obtain ⟨d, _, _, _, hEq⟩ := stepDetection_anchored cfg st now detResult h2
      rw [hEq]
      exact anchorState_active st now d
  rw [process_frame_eq,
    stepTracker_failure (stepDetection cfg st now detResult).1
      (stepDetection cfg st now detResult).2 h1,
    stepTimeout_inactive cfg _ now (by rfl)]
  exact ⟨rfl, rfl⟩

/-- Claim C3 witness: a tracker failure 0.1 seconds after the anchor — well
inside both the grace period and the timeout — still forces idle. -/
theorem fusion_tracker_failure_forces_idle_witness :
    (process_frame defaultFusionConfig
        { active := true, current_box := some ⟨100, 100, 200, 200⟩
          class_label := "Gun", last_confidence := 17 / 20
          last_detection_time := 0, source := BoxSource.detector
          frame_counter := 4 } (1 / 10) none none).active = false ∧
    (process_frame defaultFusionConfig
        { active := true, current_box := some ⟨100, 100, 200, 200⟩
          class_label := "Gun", last_confidence := 17 / 20
          last_detection_time := 0, source := BoxSource.detector
          frame_counter := 4 } (1 / 10) none none).current_box = none :=
  fusion_tracker_failure_forces_idle defaultFusionConfig
    { active := true, current_box := some ⟨100, 100, 200, 200⟩
      class_label := "Gun", last_confidence := 17 / 20
      last_detection_time := 0, source := BoxSource.detector
      frame_counter := 4 } (1 / 10) none rfl

/-- A nonnegative timeout never fires on the frame that set the anchor. -/
lemma stepTimeout_fresh_anchor (cfg : FusionConfig) (st : TrackState)
    (now : ℚ) (hT0 : 0 ≤ cfg.timeout_seconds)
    (hL : st.last_detection_time = now) : stepTimeout cfg st now = st := by
  unfold stepTimeout
  rw [if_neg]
  rintro ⟨-, hlt⟩
  rw [hL, sub_self] at hlt
  exact absurd hlt (not_lt.mpr hT0)

/-- Claim C4: while idle a returned detection is accepted — activating the
track with the detection's box, detector provenance and a fresh anchor —
exactly when its confidence reaches the initial threshold; below it the
detection step leaves the state untouched, and on acceptance a frame whose
tracker update succeeds ends tracking with detector provenance. -/
theorem fusion_idle_acquisition_iff (cfg : FusionConfig) (st : TrackState)
    (now : ℚ) (d : Detection) (hIdle : st.active = false)
    (hT0 : 0 ≤ cfg.timeout_seconds) :
    ((stepDetection cfg st now (some d)).1.active = true ↔
      cfg.initial_threshold ≤ d.confidence) ∧
    (cfg.initial_threshold ≤ d.confidence →
      (stepDetection cfg st now (some d)).1.current_box = some d.box ∧
      (stepDetection cfg st now (some d)).1.source = BoxSource.detector ∧
      (stepDetection cfg st now (some d)).1.last_detection_time = now ∧
      ∀ b : Box,
        (process_frame cfg st now (some d) (some b)).active = true ∧
        (process_frame cfg st now (some d) (some b)).source = BoxSource.detector) ∧
    (d.confidence < cfg.initial_threshold →
      (stepDetection cfg st now (some d)).1 = st) := by
  have hSch : detectionScheduled cfg st = true := by
    simp [detectionScheduled, hIdle]
  by_cases hc : cfg.initial_threshold ≤ d.confidence
  · have hSD : stepDetection cfg st now (some d) = (anchorState st now d, true) := by
      simp [stepDetection, hSch, detectionAccepted, hIdle, hc]
    refine ⟨?_, fun _ => ?_, fun hlt => absurd hc (not_le.mpr hlt)⟩
    · rw [hSD]
      simp [anchorState_active, hc]
    · rw [hSD]
      refine ⟨anchorState_box st now d, anchorState_source st now d,
        anchorState_time st now d, fun b => ?_⟩
      have hAct := anchorState_active st now d
      rw [process_frame_eq, hSD,
        stepTracker_success (anchorState st now d) true b hAct,
        stepTimeout_fresh_anchor cfg
          { anchorState st now d with
              current_box := some b,
              source := if true = true then BoxSource.detector
                        else BoxSource.tracker }
          now hT0 (anchorState_time st now d)]
      exact ⟨hAct, rfl⟩
  · have hSD : stepDetection cfg st now (some d) = (st, false) := by
      simp [stepDetection, hSch, detectionAccepted, hIdle, hc]
    refine ⟨?_, fun hge => absurd hge hc, fun _ => by rw [hSD]⟩
    rw [hSD]
    simp [hIdle, hc]

/-- Claim C4 witness: from idle, a detection with confidence exactly at the
default initial threshold 0.8 activates the track. -/
theorem fusion_idle_acquisition_iff_witness :
    (stepDetection defaultFusionConfig idleState 0
        (some ⟨⟨300, 220, 340, 260⟩, "Gun", 4 / 5⟩)).1.active = true :=
  (fusion_idle_acquisition_iff defaultFusionConfig idleState 0
      ⟨⟨300, 220, 340, 260⟩, "Gun", 4 / 5⟩ rfl
      (by norm_num [defaultFusionConfig])).1.mpr
    (by norm_num [defaultFusionConfig])

/-- The documented example scene: 640x480 frame, 60°x45° FOV, a box whose
center is the pixel (400, 200); servo centers and the vertical sign are
left configurable. -/
def exampleMapperConfig (sx sy vs : ℚ) : MapperConfig :=
  { frame_width := 640
    frame_height := 480
    fov_horizontal := 60
    fov_vertical := 45
    servo_center_x := sx
    servo_center_y := sy
    vertical_sign := vs }

/-- A box centered at the pixel (400, 200). -/
def exampleBox : Box := ⟨380, 180, 420, 220⟩

/-- Claim C6: in the 640x480, 60°x45° scene, a box centered at (400, 200)
normalizes to nx = 1/4 and ny = -1/6, and the raw (pre-clamp) angles offset
the configured centers by +7.5° horizontally and ∓3.75° vertically, the
sign following the configured vertical convention. -/
theorem angle_mapper_example_scenario (sx sy vs : ℚ) :
    exampleBox.centerX = 400 ∧ exampleBox.centerY = 200 ∧
    normX (exampleMapperConfig sx sy vs) exampleBox.centerX = 1 / 4 ∧
    normY (exampleMapperConfig sx sy vs) exampleBox.centerY = -(1 / 6) ∧
    rawAngleX (exampleMapperConfig sx sy vs) exampleBox.centerX = sx + 15 / 2 ∧
    rawAngleY (exampleMapperConfig sx sy vs) exampleBox.centerY =
      sy - vs * (15 / 4) := by
  refine ⟨by norm_num [exampleBox, Box.centerX],
    by norm_num [exampleBox, Box.centerY], ?_, ?_, ?_, ?_⟩ <;>
    · simp only [exampleMapperConfig, exampleBox, normX, normY, rawAngleX,
        rawAngleY, Box.centerX, Box.centerY]
      ring

/-- Claim C7: the angle mapper is pure and stateless — its output is fully
determined by the activity flag and the current box together with the
camera/servo parameters; the remaining track fields (confidences, times,
counters, provenance) have no influence, so repeated calls on the same
inputs agree. -/
theorem angle_mapper_pure_state_independent (m : MapperConfig)
    (t1 t2 : TrackState) (hA : t1.active = t2.active)
    (hB : t1.current_box = t2.current_box) :
    angleMapper m t1 = angleMapper m t2 := by
  unfold angleMapper
  rw [hA, hB]

/-- Claim C7 witness: two track states sharing the activity flag and box
but differing in confidence, anchor time, provenance and frame counter map
to the same servo command. -/
theorem angle_mapper_pure_state_independent_witness :
    angleMapper defaultMapperConfig
      { active := true, current_box := some ⟨380, 180, 420, 220⟩
        class_label := "Gun", last_confidence := 17 / 20
        last_detection_time := 0, source := BoxSource.detector
        frame_counter := 0 } =
    angleMapper defaultMapperConfig
      { active := true, current_box := some ⟨380, 180, 420, 220⟩
        class_label := "Gun", last_confidence := 1 / 2
        last_detection_time := 3, source := BoxSource.tracker
        frame_counter := 42 } :=
  angle_mapper_pure_state_independent defaultMapperConfig _ _ rfl rfl

/-! ## Frontend: the display WebSocket message type
(frontend/src/services/websocket.ts, interface DetectionMessage) -/

/-- One entry of DetectionMessage.detections as declared in
frontend/src/services/websocket.ts: class, confidence and bbox are
required; source is an optional, unrestricted string; the elapsed-time
field is the optional time_since_yolo. `cls` renders the TypeScript field
named class. -/
structure DetectionEntry where
  cls : String
  confidence : ℚ
  bbox : Box
  source : Option String
  time_since_yolo : Option ℚ
deriving DecidableEq, Repr

/-- The DetectionMessage interface of frontend/src/services/websocket.ts:
frame, detections, weapon_detected, timestamp, an optional top-level
source, and tracking_active. -/
structure DetectionMessage where
  frame : String
  detections : List DetectionEntry
  weapon_detected : Bool
  timestamp : ℚ
  source : Option String
  tracking_active : Bool
deriving DecidableEq, Repr

/-- Modelled from the spec: the per-detection shape the outbound status
message is claimed to carry — a source restricted to detector or tracker
and a mandatory time_since_detection float. -/
structure SpecStatusEntry where
  cls : String
  confidence : ℚ
  bbox : Box
  source : BoxSource
  time_since_detection : ℚ
deriving DecidableEq, Repr

/-- Reading of a source string as one of the two spec-sanctioned tags. -/
def readSourceTag (s : String) : Option BoxSource :=
  if s = "detector" then some BoxSource.detector
  else if s = "tracker" then some BoxSource.tracker
  else none

/-- An entry of the declared interface reinterpreted in the spec's shape:
defined exactly when the optional source parses as detector/tracker and the
optional elapsed time is present. -/
def specOfEntry (e : DetectionEntry) : Option SpecStatusEntry :=
  match e.source, e.time_since_yolo with
  | some s, some t =>
    (readSourceTag s).map fun tag =>
      { cls := e.cls, confidence := e.confidence, bbox := e.bbox
        source := tag, time_since_detection := t }
  | _, _ => none

/-- A message whose every detection entry carries the spec's shape. -/
def specConforming (m : DetectionMessage) : Prop :=
  ∀ e ∈ m.detections, (specOfEntry e).isSome = true

/-- A message the declared interface admits whose entry has the source
string the backend logs actually use and no elapsed-time field. -/
def yoloMessage : DetectionMessage :=
  { frame := "frame0"
    detections :=
      [{ cls := "Gun", confidence := 17 / 20, bbox := ⟨100, 100, 200, 200⟩
         source := some "yolo", time_since_yolo := none }]
    weapon_detected := true
    timestamp := 0
    source := some "yolo"
    tracking_active := true }

/-- Claim C5 counterexample: the declared message type does not force every
entry into the claimed shape — an entry with source "yolo" and no
elapsed-time field is admitted, so its spec reinterpretation is undefined. -/
theorem detection_message_spec_shape_fails : ¬ specConforming yoloMessage := by
  intro h
  have := h { cls := "Gun", confidence := 17 / 20, bbox := ⟨100, 100, 200, 200⟩
              source := some "yolo", time_since_yolo := none }
    (by simp [yoloMessage])
  simp [specOfEntry] at this

/-- Claim C5 amended: the interface always provides tracking_active, the
timestamp and, per entry, class, confidence and the full bbox (the
structure fields above); an entry additionally carries the spec's shape
exactly when its optional source is the string detector or tracker and its
optional time_since_yolo is present — the interface itself restricts
neither, and names the time field time_since_yolo, not
time_since_detection. -/
theorem detection_message_spec_shape_iff (m : DetectionMessage) :
    specConforming m ↔
      ∀ e ∈ m.detections,
        (e.source = some "detector" ∨ e.source = some "tracker") ∧
        e.time_since_yolo.isSome = true := by
  unfold specConforming
  refine forall_congr' fun e => forall_congr' fun _ => ?_
  unfold specOfEntry readSourceTag
  rcases e.source with _ | s
  · simp
  · rcases e.time_since_yolo with _ | t
    · simp
    · by_cases h1 : s = "detector"
      · simp [h1]
      · by_cases h2 : s = "tracker"
        · simp [h1, h2]
        · simp [h1, h2]

/-! ## Frontend: incident storage
(frontend/src/services/websocket.ts, IncidentStorageService) -/

/-- A calendar timestamp as the frontend's Date comparisons see it: year,
zero-based month, one-based day of month, and the time of day in
milliseconds. Comparison of Date objects is by epoch milliseconds, which is
the lexicographic order on these fields. -/
structure DateTime where
  year : ℤ
  month : ℕ
  dayOfMonth : ℕ
  msOfDay : ℚ
deriving DecidableEq, Repr

/-- Date order: lexicographic on year, month, day, time of day — the order
new Date comparisons produce. -/
def dateLe (a b : DateTime) : Bool :=
  if a.year = b.year then
    if a.month = b.month then
      if a.dayOfMonth = b.dayOfMonth then a.msOfDay ≤ b.msOfDay
      else a.dayOfMonth < b.dayOfMonth
    else a.month < b.month
  else a.year < b.year

/-- Incident severity levels. -/
inductive Severity where
  | high
  | medium
  | low
deriving DecidableEq, Repr

/-- StoredIncident of frontend/src/services/websocket.ts: duration and bbox
are optional. -/
structure StoredIncident where
  id : ℤ
  timestamp : DateTime
  location : String
  weaponType : String
  imageUrl : String
  severity : Severity
  confidence : ℚ
  duration : Option ℚ
  bbox : Option Box
deriving DecidableEq, Repr

/-- MAX_INCIDENTS of frontend/src/services/websocket.ts. -/
def MAX_INCIDENTS : ℕ := 200

/-- IncidentStorageService.saveIncident on the stored list: unshift the new
incident, then splice everything past MAX_INCIDENTS when over the cap. -/
def saveIncident (incident : StoredIncident)
    (stored : List StoredIncident) : List StoredIncident :=
  let incidents := incident :: stored
  if MAX_INCIDENTS < incidents.length then incidents.take MAX_INCIDENTS
  else incidents

/-- Claim C8: after saveIncident the list holds at most MAX_INCIDENTS
entries, the new incident sits first, and the survivors are exactly the
leading MAX_INCIDENTS - 1 previously stored incidents in their old order. -/
theorem save_incident_cap_and_order (incident : StoredIncident)
    (stored : List StoredIncident) :
    (saveIncident incident stored).length ≤ MAX_INCIDENTS ∧
    (saveIncident incident stored).head? = some incident ∧
    (saveIncident incident stored).tail = stored.take (MAX_INCIDENTS - 1) := by
  simp only [saveIncident]
  split_ifs with h
  · refine ⟨?_, ?_, ?_⟩
    · exact List.length_take_le MAX_INCIDENTS (incident :: stored)
    · rw [show MAX_INCIDENTS = 199 + 1 from rfl, List.take_succ_cons]
      rfl
    · rw [show MAX_INCIDENTS = 199 + 1 from rfl, List.take_succ_cons]
      rfl
  · have hlen : stored.length ≤ MAX_INCIDENTS - 1 := by
      simp only [not_lt, List.length_cons] at h
      omega
    exact ⟨by simpa using Nat.not_lt.mp h, rfl,
      by simp [List.take_of_length_le hlen]⟩

/-- The duration sum the stats use: inc.duration || 0 accumulated left to
right over a list of incidents. -/
def sumDurations (l : List StoredIncident) : ℚ :=
  l.foldl (fun sum inc => sum + inc.duration.getD 0) 0

/-- new Date(getFullYear(), getMonth(), 1): the first instant of the
current calendar month. The source binds it to a variable named monthAgo. -/
def monthStart (d : DateTime) : DateTime :=
  { year := d.year, month := d.month, dayOfMonth := 1, msOfDay := 0 }

/-- The IncidentStats record of frontend/src/services/websocket.ts. -/
structure IncidentStats where
  total : ℕ
  thisMonth : ℕ
  totalSeconds : ℚ
  monthlySeconds : ℚ
  monthlyCost : ℚ
  lastUpdate : DateTime
deriving DecidableEq, Repr

/-- IncidentStorageService.calculateStats: filter the incidents whose
timestamp is on or after the first day of the current calendar month, sum
durations (missing treated as 0) over all and over the filtered list, and
price the monthly seconds at $0.01 each. -/
def calculateStats (incidents : List StoredIncident) (now : DateTime) :
    IncidentStats :=
  let monthAgo := monthStart now
  let incidentsThisMonth :=
    incidents.filter fun inc => dateLe monthAgo inc.timestamp
  let totalSeconds := sumDurations incidents
  let monthlySeconds := sumDurations incidentsThisMonth
  let monthlyCost := monthlySeconds * (1 / 100)
  { total := incidents.length
    thisMonth := incidentsThisMonth.length
    totalSeconds := totalSeconds
    monthlySeconds := monthlySeconds
    monthlyCost := monthlyCost
    lastUpdate := now }

/-- The duration fold, started anywhere, is the start plus the sum of the
default-0 durations. -/
lemma foldl_durations_eq (l : List StoredIncident) (a : ℚ) :
    l.foldl (fun sum inc => sum + inc.duration.getD 0) a =
      a + (l.map fun inc => inc.duration.getD 0).sum := by
  induction l generalizing a with
  | nil => simp
  | cons x xs ih => simp [ih, add_assoc]

/-- The duration sum as a mapped list sum. -/
lemma sumDurations_eq (l : List StoredIncident) :
    sumDurations l = (l.map fun inc => inc.duration.getD 0).sum := by
  unfold sumDurations
  rw [foldl_durations_eq]
  simp

/-- A sample clock: March 5 (zero-based month 2), 2026. -/
def marchFifth : DateTime :=
  { year := 2026, month := 1 + 1, dayOfMonth := 5, msOfDay := 0 }

/-- An incident of February 20, 2026 — 13 days before the sample clock, so
inside any rolling 30-day window, but in the previous calendar month. -/
def lateFebruaryIncident : StoredIncident :=
  { id := 1, timestamp := { year := 2026, month := 1, dayOfMonth := 20, msOfDay := 0 }
    location := "Camera 1", weaponType := "Gun", imageUrl := ""
    severity := Severity.high, confidence := 17 / 20
    duration := some 10, bbox := none }

/-- An incident at the first instant of March 2026. -/
def firstOfMarchIncident : StoredIncident :=
  { lateFebruaryIncident with
      id := 2
      timestamp := { year := 2026, month := 1 + 1, dayOfMonth := 1, msOfDay := 0 } }

/-- Claim C9: calculateStats prices the month at exactly 0.01 per second of
monthlySeconds, and monthlySeconds sums the default-0 durations of
precisely the incidents timestamped on or after the first day of the
current calendar month; the window is the calendar month, not a rolling 30
days — an incident 13 days old but in the previous month contributes
nothing, while one at the month's first instant counts in full. -/
theorem calculate_stats_monthly_calendar_cost
    (incidents : List StoredIncident) (now : DateTime) :
    (calculateStats incidents now).monthlyCost =
      (1 / 100 : ℚ) * (calculateStats incidents now).monthlySeconds ∧
    (calculateStats incidents now).monthlySeconds =
      ((incidents.filter fun inc =>
          dateLe { year := now.year, month := now.month, dayOfMonth := 1
                   msOfDay := 0 } inc.timestamp).map
        fun inc => inc.duration.getD 0).sum ∧
    (calculateStats [lateFebruaryIncident] marchFifth).monthlySeconds = 0 ∧
    (calculateStats [firstOfMarchIncident] marchFifth).monthlySeconds = 10 := by
  refine ⟨?_, ?_,
    by norm_num [calculateStats, sumDurations, monthStart, dateLe,
      lateFebruaryIncident, marchFifth],
    by norm_num [calculateStats, sumDurations, monthStart, dateLe,
      firstOfMarchIncident, lateFebruaryIncident, marchFifth]⟩
  · simp [calculateStats]
    ring
  · simp [calculateStats, monthStart, sumDurations_eq]

/-! ## Frontend: the App display-message handler (App.tsx onMessage) -/

/-- The ActiveIncidentSession record of App.tsx. -/
structure SessionState where
  id : ℚ
  startTime : ℚ
  firstFrame : String
  weaponType : String
  confidence : ℚ
  bbox : Box
  capturedFrames : List String
  lastFrameTime : ℚ
deriving DecidableEq, Repr

/-- The slice of App component state the display handler touches
synchronously. -/
structure AppState where
  activeIncident : Option SessionState
  totalIncidents : ℕ
  monthIncidents : ℕ
  showingNewIncident : Bool
  currentImage : Option String
deriving DecidableEq, Repr

/-- JavaScript's x || d on an optional number: the default when the value
is absent or 0 (falsy), the value otherwise. -/
def jsOrRat (v : Option ℚ) (dflt : ℚ) : ℚ :=
  match v with
  | none => dflt
  | some c => if c = 0 then dflt else c

/-- JavaScript's s || d on an optional string: the default when the string
is absent or empty (falsy). -/
def jsOrString (v : Option String) (dflt : String) : String :=
  match v with
  | none => dflt
  | some s => if s = "" then dflt else s

/-- The data-URL prefix App.tsx puts in front of every received frame. -/
def base64Frame (data : DetectionMessage) : String :=
  "data:image/jpeg;base64," ++ data.frame

/-- The session App.tsx creates on the first detection of an incident:
id and timestamps from the clock, weapon type, confidence and bbox from the
first detection entry with JavaScript-falsy defaults. -/
def newSession (now : ℚ) (data : DetectionMessage) : SessionState :=
  { id := now
    startTime := now
    firstFrame := base64Frame data
    weaponType := jsOrString (data.detections.head?.map fun e => e.cls) "Gun"
    confidence := jsOrRat (data.detections.head?.map fun e => e.confidence) 0
    bbox := (data.detections.head?.map fun e => e.bbox).getD ⟨0, 0, 0, 0⟩
    capturedFrames := [base64Frame data]
    lastFrameTime := now }

/-- The session update App.tsx applies while an incident is active: raise
the confidence to the maximum of the old value and the first detection's
(falsy-defaulted) confidence, and capture a further frame when at least
100 ms have passed and fewer than 20 frames are held. -/
def updateSession (now : ℚ) (data : DetectionMessage)
    (cur : SessionState) : SessionState :=
  let conf := max cur.confidence
    (jsOrRat (data.detections.head?.map fun e => e.confidence) cur.confidence)
  if 100 ≤ now - cur.lastFrameTime ∧ cur.capturedFrames.length < 20 then
    { cur with confidence := conf
               capturedFrames := cur.capturedFrames ++ [base64Frame data]
               lastFrameTime := now }
  else { cur with confidence := conf }

/-- The synchronous part of the App.tsx onMessage handler: refresh the live
image when a frame is present; when weapon_detected and tracking_active
hold, open a session (counting a new incident) or update the active one.
The not-tracking branch leaves this state unchanged synchronously — it only
schedules the deferred 5-second save timer, which is outside this model. -/
def onDisplayMessage (now : ℚ) (data : DetectionMessage)
    (st : AppState) : AppState :=
  let st0 := if data.frame = "" then st
             else { st with currentImage := some (base64Frame data) }
  if data.weapon_detected && data.tracking_active then
    match st0.activeIncident with
    | none =>
      { st0 with activeIncident := some (newSession now data)
                 showingNewIncident := true
                 totalIncidents := st0.totalIncidents + 1
                 monthIncidents := st0.monthIncidents + 1 }
    | some cur =>
      { st0 with activeIncident := some (updateSession now data cur)
                 showingNewIncident := true }
  else st0

/-- Claim C10: on a message with weapon_detected and tracking_active both
true, the total-incidents counter grows by exactly 1 when no session is
active (and the new session is installed) and is unchanged when one is; the
active session's confidence becomes the maximum of its old value and the
message's first-detection confidence (for nonnegative stored confidence),
and in particular never decreases. -/
theorem on_message_counter_and_session_confidence
    (now : ℚ) (data : DetectionMessage) (st : AppState)
    (hW : data.weapon_detected = true) (hT : data.tracking_active = true) :
    (st.activeIncident = none →
      (onDisplayMessage now data st).totalIncidents = st.totalIncidents + 1 ∧
      (onDisplayMessage now data st).activeIncident =
        some (newSession now data)) ∧
    (∀ cur, st.activeIncident = some cur →
      (onDisplayMessage now data st).totalIncidents = st.totalIncidents ∧
      (onDisplayMessage now data st).activeIncident =
        some (updateSession now data cur) ∧
      cur.confidence ≤ (updateSession now data cur).confidence ∧
      ∀ e, data.detections.head? = some e → 0 ≤ cur.confidence →
        (updateSession now data cur).confidence =
          max cur.confidence e.confidence) := by
  constructor
  · intro hNone
    by_cases hf : data.frame = "" <;>
      simp [onDisplayMessage, hf, hW, hT, hNone]
  · intro cur hCur
    have hMono : cur.confidence ≤ (updateSession now data cur).confidence := by
      unfold updateSession
      split_ifs <;> exact le_max_left _ _
    have hMax : ∀ e, data.detections.head? = some e → 0 ≤ cur.confidence →
        (updateSession now data cur).confidence =
          max cur.confidence e.confidence := by
      intro e he h0
      have hConf : max cur.confidence
          (jsOrRat ((data.detections.head?).map fun e => e.confidence)
            cur.confidence) = max cur.confidence e.confidence := by
        rw [he]
        unfold jsOrRat
        by_cases hz : e.confidence = 0
        · simp [hz, max_self, max_eq_left h0]
        · simp [hz]
      unfold updateSession
      split_ifs <;> simpa using hConf
    refine ⟨?_, ?_, hMono, hMax⟩ <;>
      by_cases hf : data.frame = "" <;>
        simp [onDisplayMessage, hf, hW, hT, hCur]

/-- Claim C10 witness: a weapon-tracking message arriving with no active
session raises the total-incidents counter from 5 to 6. -/
theorem on_message_counter_witness :
    (onDisplayMessage 0
        { frame := "abc"
          detections :=
            [{ cls := "Gun", confidence := 9 / 10, bbox := ⟨100, 100, 200, 200⟩
               source := some "yolo", time_since_yolo := none }]
          weapon_detected := true, timestamp := 0, source := none
          tracking_active := true }
        { activeIncident := none, totalIncidents := 5, monthIncidents := 2
          showingNewIncident := false, currentImage := none }).totalIncidents =
      6 :=
  ((on_message_counter_and_session_confidence 0
      { frame := "abc"
        detections :=
          [{ cls := "Gun", confidence := 9 / 10, bbox := ⟨100, 100, 200, 200⟩
             source := some "yolo", time_since_yolo := none }]
        weapon_detected := true, timestamp := 0, source := none
        tracking_active := true }
      { activeIncident := none, totalIncidents := 5, monthIncidents := 2
        showingNewIncident := false, currentImage := none } rfl rfl).1 rfl).1

end ProyectoIot
